import Mathlib

/-!
Shallow embedding of `src/app.py` (DETIKNews-API), a FastAPI scraping service.

The Python functions `fetch_page`, `parse_content`, `parse_item`, `parse`,
`fetch_json`, `get_trending_keywords`, and the route handlers `scrape` and
`trending_keywords` are translated into pure Lean functions.  Network I/O is
modelled by an explicit environment mapping each outgoing request to an
outcome, and the selectolax HTML parser (a black box to this program) is
modelled by an explicit structure giving, per markup string, the outcomes of
exactly the selector queries the program performs.  Every embedded function
additionally returns the requests it issues, so that statements about which
fetches happen (count, order, headers) can be made.
-/

set_option autoImplicit false

namespace DetikAPI

/-- An article record as constructed by `parse_item` and validated by the
pydantic model `ScrapeResult` in `app.py` (fields in source order). -/
structure ScrapeResult where
  title : String
  url : String
  date : String
  desc : String
  content : String
deriving DecidableEq

/-- One outbound HTTP GET: the url, query parameters and headers passed to
`httpx.AsyncClient.get`.  Parameter and header dicts are modelled as
association lists in insertion order; the integer `page` value is rendered
with `toString`, matching its query-string encoding. -/
structure Request where
  url : String
  params : List (String × String)
  headers : List (String × String)
deriving DecidableEq

/-- Outcome of one HTTP GET as performed by `httpx`: either a timeout
(raising `httpx.TimeoutException`) or a response carrying a status code and a
body text.  `httpx.AsyncClient.get` returns the response object for every
status code; `httpx.HTTPStatusError` is raised only by
`Response.raise_for_status`, which `app.py` never calls, so the second
`except` clause of `fetch_page` and of `fetch_json` is unreachable. -/
inductive FetchOutcome where
  | timeout
  | response (status : Nat) (text : String)
deriving DecidableEq

/-- The Python exceptions that can escape the functions of `app.py`:
`fastapi.HTTPException` with a status code and a detail message, plus the
builtin exceptions raised by attribute access on `None`, by a missing dict
key, by an indexing or membership operation on an unsuitable type, and by
`response.json()` on an undecodable body. -/
inductive PyErr where
  | httpExc (status : Nat) (detail : String)
  | attrError
  | keyError (key : String)
  | typeError
  | jsonDecodeError
deriving DecidableEq

/-- Network environment for text fetches: maps url, params and headers to the
outcome of the single GET that `fetch_page` performs. -/
abbrev Env := String → List (String × String) → List (String × String) → FetchOutcome

/-- JSON values as decoded by `response.json()`. -/
inductive Json where
  | null
  | bool (b : Bool)
  | num (n : Int)
  | str (s : String)
  | arr (elems : List Json)
  | obj (fields : List (String × Json))

/-- Outcome of one JSON fetch performed by `fetch_json`: timeout, a body that
does not decode as JSON, or a decoded JSON value. -/
inductive JsonOutcome where
  | timeout
  | decodeFail
  | value (j : Json)

/-- Network environment for JSON fetches: maps url and headers to the outcome
of the single GET that `fetch_json` performs. -/
abbrev JsonEnv := String → List (String × String) → JsonOutcome

/-- Model of one article stub node of a listing page, holding the outcomes of
exactly the selector queries `parse_item` performs on it:
`titleText` is the trimmable text of `css_first("h3.media__title")` (`none`
when that element is absent, in which case `.text()` raises AttributeError);
`dateTitleAttr` is the `title` attribute of `css_first(".media__date > span")`
(outer `none`: element absent, AttributeError; inner `none`: attribute absent,
KeyError); `linkHref` is the `href` attribute of `css_first("a")` likewise;
`descText` is the text of `css_first("div.media__desc")` (`none`: element
absent, which `parse_item` checks for). -/
structure Stub where
  titleText : Option String
  dateTitleAttr : Option (Option String)
  linkHref : Option (Option String)
  descText : Option String
deriving DecidableEq

/-- Black-box model of `selectolax.parser.HTMLParser`, per markup string: the
stub nodes matching the selector `article`, and, for article pages, the texts
of the nodes matching `div.detail__body-text > p` in document order. -/
structure Dom where
  articles : String → List Stub
  bodyParagraphs : String → List String

/-- Python truthiness of a JSON value, as used by `if not json_data`. -/
def Json.truthy : Json → Bool
  | .null => false
  | .bool b => b
  | .num n => n != 0
  | .str s => !s.isEmpty
  | .arr xs => !xs.isEmpty
  | .obj fs => !fs.isEmpty

/-- Python equality of the string `k` with a JSON value, as used by list
membership: a string equals only an equal string. -/
def Json.eqStr (k : String) : Json → Bool
  | .str s => k == s
  | _ => false

/-- Python membership test `k in j` for a string key `k`: key membership for a
dict, element membership for a list, substring test for a string, and a
TypeError for the non-container values. -/
def Json.containsKey (k : String) : Json → Except PyErr Bool
  | .obj fields => .ok (fields.any (fun p => p.1 == k))
  | .arr xs => .ok (xs.any (Json.eqStr k))
  | .str s => .ok (decide (List.IsInfix k.data s.data))
  | _ => .error .typeError

/-- Python indexing `j[k]` with a string key `k`: dict lookup (KeyError when
the key is missing), and a TypeError on every non-dict value (list and string
indices must be integers; the rest is not subscriptable). -/
def Json.getItem (k : String) : Json → Except PyErr Json
  | .obj fields =>
    match fields.lookup k with
    | some v => .ok v
    | none => .error (.keyError k)
  | _ => .error .typeError

/-- Python iteration `for item in j`: the elements of a list, the keys of a
dict (insertion order), the characters of a string, and a TypeError on the
non-iterable values. -/
def Json.iterate : Json → Except PyErr (List Json)
  | .arr xs => .ok xs
  | .obj fields => .ok (fields.map (fun p => Json.str p.1))
  | .str s => .ok (s.data.map (fun c => Json.str (String.mk [c])))
  | _ => .error .typeError

/-- Python `str.strip()` with no argument: removes leading and trailing
whitespace characters.  Written over the character list so that it is
kernel-executable. -/
def pyStrip (s : String) : String :=
  String.mk (((s.data.dropWhile Char.isWhitespace).reverse.dropWhile
    Char.isWhitespace).reverse)

/-- A Python list comprehension whose element expression may raise: stops at
the first raising element, propagating its exception. -/
def mapExcept {α β : Type} (f : α → Except PyErr β) : List α → Except PyErr (List β)
  | [] => .ok []
  | x :: xs =>
    match f x with
    | .error e => .error e
    | .ok y =>
      match mapExcept f xs with
      | .error e => .error e
      | .ok ys => .ok (y :: ys)

/-- Whether an `Except` value is an exception. -/
def isErr {ε α : Type} : Except ε α → Bool
  | .error _ => true
  | .ok _ => false

/-- The search-listing url hardcoded in the `scrape` handler. -/
def SEARCH_URL : String := "https://www.detik.com/search/searchall?"

/-- The trending-feed url hardcoded in the `trending_keywords` handler. -/
def TRENDING_URL : String := "https://explore-api.detik.com/trending"

/-- The fixed descriptive client-identifier header value (User-Agent) built
in both route handlers. -/
def UA : String := "Mozilla/5.0 (Windows NT 10.0; Win64; x64) AppleWebKit/537.36 (KHTML, like Gecko) Chrome/244.178.44.111 Safari/537.36"

/-- The headers dict built in both route handlers. -/
def uaHeaders : List (String × String) := [("User-Agent", UA)]

/-- The query-parameter dict the `scrape` handler builds for one page. -/
def pageParams (keyword : String) (page : Nat) : List (String × String) :=
  [("query", keyword), ("page", toString page)]

/-- Embedding of `fetch_page` (app.py lines 21 to 33).  It issues exactly one
GET with the given url, params and headers.  On `httpx.TimeoutException` it
raises `HTTPException(504, "Timeout: unable to connect to " + url)`.
Otherwise `client.get` has returned a response object and `response.text` is
returned whatever the status code: `httpx.HTTPStatusError` is raised only by
`Response.raise_for_status`, which is never called, so the second `except`
clause is dead code (were it reachable, it would itself crash, since the name
`response` is unbound when `client.get` raises).  The first component is the
request issued. -/
def fetch_page (env : Env) (url : String) (params headers : List (String × String)) :
    Request × Except PyErr String :=
  (⟨url, params, headers⟩,
    match env url params headers with
    | .timeout => .error (.httpExc 504 ("Timeout: unable to connect to " ++ url))
    | .response _ text => .ok text)

/-- Embedding of `parse_content` (app.py lines 36 to 40).  Fetches the
article url with empty params and empty headers, reads the texts of the
paragraph nodes under the article body container, and returns them joined
with newlines, or the fixed sentinel when there are none.  A fetch failure
propagates unchanged.  The first component is the request issued. -/
def parse_content (env : Env) (dom : Dom) (url : String) :
    Request × Except PyErr String :=
  (⟨url, [], []⟩,
    match (fetch_page env url [] []).2 with
    | .error e => .error e
    | .ok html =>
      .ok (if dom.bodyParagraphs html = [] then "No content available."
           else String.intercalate "\n" (dom.bodyParagraphs html)))

/-- Embedding of `parse_item` (app.py lines 43 to 56).  Reads title text,
date `title` attribute, link `href` attribute and optional description text
from one stub node, raising AttributeError or KeyError when a required
element or attribute is absent, then resolves the stub's content via
`parse_content` on its link.  The first component is the list of requests
issued (none when a field access raises before the content fetch). -/
def parse_item (env : Env) (dom : Dom) (stub : Stub) :
    List Request × Except PyErr ScrapeResult :=
  match stub.titleText with
  | none => ([], .error .attrError)
  | some title =>
    match stub.dateTitleAttr with
    | none => ([], .error .attrError)
    | some none => ([], .error (.keyError "title"))
    | some (some date) =>
      match stub.linkHref with
      | none => ([], .error .attrError)
      | some none => ([], .error (.keyError "href"))
      | some (some url) =>
        match (parse_content env dom url).2 with
        | .error e => ([(parse_content env dom url).1], .error e)
        | .ok content =>
          ([(parse_content env dom url).1],
            .ok ⟨pyStrip title, url, date,
              pyStrip (match stub.descText with
                | some d => d
                | none => "No description"),
              content⟩)

/-- Model of `asyncio.gather` over tasks that each report their issued
requests and their result: all tasks run (a failing sibling does not cancel
the others, so every task's requests are issued), the successful results are
assembled in task order, and if any task raises, the join raises; the
serialization below reports the requests in task order and, when several
tasks fail, the exception of the lowest-indexed one, one representative
completion schedule.  Order-independence of the assembled results is proved
separately via `runSchedule`. -/
def gatherExc {α : Type} : List (List Request × Except PyErr α) →
    List Request × Except PyErr (List α)
  | [] => ([], .ok [])
  | t :: rest =>
    (t.1 ++ (gatherExc rest).1,
      match t.2 with
      | .error e => .error e
      | .ok v =>
        match (gatherExc rest).2 with
        | .error e => .error e
        | .ok vs => .ok (v :: vs))

/-- The trace of one page of `scrape`: the single listing-page request issued
by `parse`, and the article-content requests issued by its stubs. -/
structure PageTrace where
  listing : Request
  contents : List Request
deriving DecidableEq

/-- Embedding of `parse` (app.py lines 59 to 65).  Fetches the listing page;
a fetch failure propagates.  An empty body (`if not html`) yields the empty
record list.  Otherwise one `parse_item` task is launched per `article` node
and joined with `asyncio.gather`, which keeps the results in stub order.  The
first component is the page trace. -/
def parse (env : Env) (dom : Dom) (url : String)
    (params headers : List (String × String)) :
    PageTrace × Except PyErr (List ScrapeResult) :=
  match (fetch_page env url params headers).2 with
  | .error e => (⟨⟨url, params, headers⟩, []⟩, .error e)
  | .ok html =>
    if html = "" then (⟨⟨url, params, headers⟩, []⟩, .ok [])
    else
      (⟨⟨url, params, headers⟩,
          (gatherExc ((dom.articles html).map (parse_item env dom))).1⟩,
        (gatherExc ((dom.articles html).map (parse_item env dom))).2)

/-- Embedding of the `for page in range(1, pages + 1)` loop of the `scrape`
handler (app.py lines 110 to 115), over an explicit list of page numbers.
Each page is parsed sequentially; its records are appended to the
accumulator; a failure propagates at once, so later pages are not fetched and
no accumulated records are returned.  The first component lists the page
traces of the pages actually processed. -/
def scrapeLoop (env : Env) (dom : Dom) (keyword : String) :
    List Nat → List PageTrace × Except PyErr (List ScrapeResult)
  | [] => ([], .ok [])
  | p :: rest =>
    match (parse env dom SEARCH_URL (pageParams keyword p) uaHeaders).2 with
    | .error e =>
      ([(parse env dom SEARCH_URL (pageParams keyword p) uaHeaders).1], .error e)
    | .ok items =>
      ((parse env dom SEARCH_URL (pageParams keyword p) uaHeaders).1 ::
          (scrapeLoop env dom keyword rest).1,
        match (scrapeLoop env dom keyword rest).2 with
        | .error e => .error e
        | .ok more => .ok (items ++ more))

/-- Embedding of the `scrape` route handler (app.py lines 101 to 115): pages
1 through `pages` inclusive, in order (`range(1, pages + 1)` is
`List.range' 1 pages`), with the fixed search url and the fixed header dict.
FastAPI's `Query(1, ge=1)` validation restricts `pages` to at least 1. -/
def scrape (env : Env) (dom : Dom) (keyword : String) (pages : Nat) :
    List PageTrace × Except PyErr (List ScrapeResult) :=
  scrapeLoop env dom keyword (List.range' 1 pages)

/-- Embedding of `fetch_json` (app.py lines 68 to 78).  One GET with no query
parameters; timeout raises `HTTPException(504, ...)` exactly as in
`fetch_page`; an undecodable body raises `json.JSONDecodeError` from
`response.json()` (caught nowhere); otherwise the decoded JSON value is
returned whatever the status code, the status-error `except` clause being
dead code as in `fetch_page`.  The first component is the request issued. -/
def fetch_json (jenv : JsonEnv) (url : String) (headers : List (String × String)) :
    Request × Except PyErr Json :=
  (⟨url, [], headers⟩,
    match jenv url headers with
    | .timeout => .error (.httpExc 504 ("Timeout: unable to connect to " ++ url))
    | .decodeFail => .error .jsonDecodeError
    | .value j => .ok j)

/-- Embedding of `get_trending_keywords` (app.py lines 81 to 89).  After the
fetch, the guard `not json_data or "body" not in json_data or
"topKeywordSearch" not in json_data["body"]` returns the empty list when it
holds, evaluating left to right with Python membership and indexing semantics
(which can themselves raise TypeError on non-container values); otherwise the
comprehension returns `item["keyword"]` for each entry of
`json_data["body"]["topKeywordSearch"]`, in order, raising KeyError on an
entry without that key. -/
def get_trending_keywords (jenv : JsonEnv) (api_url : String)
    (headers : List (String × String)) : Request × Except PyErr (List Json) :=
  ((fetch_json jenv api_url headers).1,
    match (fetch_json jenv api_url headers).2 with
    | .error e => .error e
    | .ok j =>
      if j.truthy = false then .ok []
      else
        match j.containsKey "body" with
        | .error e => .error e
        | .ok false => .ok []
        | .ok true =>
          match j.getItem "body" with
          | .error e => .error e
          | .ok body =>
            match body.containsKey "topKeywordSearch" with
            | .error e => .error e
            | .ok false => .ok []
            | .ok true =>
              match body.getItem "topKeywordSearch" with
              | .error e => .error e
              | .ok tks =>
                match tks.iterate with
                | .error e => .error e
                | .ok items => mapExcept (fun it => it.getItem "keyword") items)

/-- Embedding of the `trending_keywords` route handler (app.py lines 92 to
98): calls `get_trending_keywords` with the fixed api url and the fixed
header dict. -/
def trending_keywords (jenv : JsonEnv) : Request × Except PyErr (List Json) :=
  get_trending_keywords jenv TRENDING_URL uaHeaders

/-- The records of a successful page result, the empty list otherwise; used
to state the concatenation law of `scrape`. -/
def okOrNil {α : Type} : Except PyErr (List α) → List α
  | .ok vs => vs
  | .error _ => []

/-- Slot state of a fan-out/fan-in join: as each task completes, its result
is written to the slot of its own index. -/
def runSchedule {α : Type} (tasks : List α) :
    List Nat → (Nat → Option α) → (Nat → Option α)
  | [], slots => slots
  | j :: rest, slots =>
    runSchedule tasks rest (fun i => if i = j then tasks[j]? else slots i)

/-- Reads the joined results out of the slots; `none` when a slot is empty. -/
def collectSlots {α : Type} : List (Option α) → Option (List α)
  | [] => some []
  | none :: _ => none
  | some v :: rest =>
    match collectSlots rest with
    | none => none
    | some vs => some (v :: vs)

/-- Assembly of `asyncio.gather`'s result list under an explicit completion
order `σ` of the task indices: each completing task writes its result into
the slot of its index, and the final list is read off in index order. -/
def gatherAssemble {α : Type} (tasks : List α) (σ : List Nat) : Option (List α) :=
  collectSlots ((List.range tasks.length).map (runSchedule tasks σ (fun _ => none)))

/-- Concrete environment where the upstream answers every GET with HTTP
status 404 and body text "Not Found". -/
def envC1 : Env := fun _ _ _ => .response 404 "Not Found"

/-- Concrete stub with all elements present, with padding whitespace on title
and description. -/
def stubA : Stub :=
  ⟨some " TA ", some (some "DA"), some (some "https://a"), some " da "⟩

/-- Concrete stub whose description element is absent. -/
def stubB : Stub := ⟨some "TB", some (some "DB"), some (some "https://b"), none⟩

/-- Concrete environment for the pagination scenario: listing page 1 is the
markup L1, every other listing page is L2, article pages are A. -/
def env2 : Env := fun url params _ =>
  if url = SEARCH_URL then
    (if ("page", "1") ∈ params then .response 200 "L1" else .response 200 "L2")
  else .response 200 "A"

/-- Concrete DOM for the pagination scenario: L1 holds one stub, L2 another,
article pages have two paragraphs. -/
def dom2 : Dom :=
  { articles := fun h => if h = "L1" then [stubA] else if h = "L2" then [stubB] else []
    bodyParagraphs := fun h => if h = "A" then ["x1", "x2"] else [] }

/-- The record `parse_item` builds from `stubA` under `dom2`. -/
def recA : ScrapeResult := ⟨"TA", "https://a", "DA", "da", "x1\nx2"⟩

/-- The record `parse_item` builds from `stubB` under `dom2`. -/
def recB : ScrapeResult := ⟨"TB", "https://b", "DB", "No description", "x1\nx2"⟩

/-- Concrete stub whose article link times out under `env3`. -/
def stubSlow : Stub := ⟨some "TS", some (some "DS"), some (some "https://slow"), none⟩

/-- Concrete environment for the abort scenario: listing pages respond, but
the article url of the page-2 stub times out. -/
def env3 : Env := fun url params _ =>
  if url = SEARCH_URL then
    (if ("page", "1") ∈ params then .response 200 "L1" else .response 200 "L2")
  else if url = "https://slow" then .timeout
  else .response 200 "A"

/-- Concrete DOM for the abort scenario. -/
def dom3 : Dom :=
  { articles := fun h =>
      if h = "L1" then [stubA] else if h = "L2" then [stubSlow] else []
    bodyParagraphs := fun h => if h = "A" then ["x1"] else [] }

/-- Concrete environment for the stub-order scenario: one listing page L1. -/
def env4 : Env := fun url _ _ =>
  if url = SEARCH_URL then .response 200 "L1" else .response 200 "A"

/-- Concrete DOM for the stub-order scenario: two stubs on one page. -/
def dom4 : Dom :=
  { articles := fun h => if h = "L1" then [stubA, stubB] else []
    bodyParagraphs := fun h => if h = "A" then ["x1", "x2"] else [] }

/-- The records of the stub-order scenario, in stub order. -/
def rs4 : List ScrapeResult := [recA, recB]

/-- Concrete stub for the header scenario. -/
def stub5 : Stub :=
  ⟨some "T5", some (some "D5"), some (some "https://news.detik.com/a"), some "d5"⟩

/-- Concrete DOM for the header scenario: listing L5 holds one stub. -/
def dom5 : Dom :=
  { articles := fun h => if h = "L5" then [stub5] else []
    bodyParagraphs := fun _ => ["p"] }

/-- Concrete environment for the header scenario. -/
def env5 : Env := fun url _ _ =>
  if url = SEARCH_URL then .response 200 "L5" else .response 200 "A5"

/-- The page trace `scrape` produces in the header scenario: the listing
request carries the fixed header dict, the article request carries none. -/
def pt5 : PageTrace :=
  ⟨⟨SEARCH_URL, pageParams "kw" 1, uaHeaders⟩,
    [⟨"https://news.detik.com/a", [], []⟩]⟩

/-- JSON environment whose single fetch times out. -/
def jenvTimeout : JsonEnv := fun _ _ => .timeout

/-- Concrete environment whose listing fetch yields an empty body. -/
def env6 : Env := fun _ _ _ => .response 200 ""

/-- DOM with no article stubs and no paragraphs on any page. -/
def dom6 : Dom := { articles := fun _ => [], bodyParagraphs := fun _ => [] }

/-- Concrete environment serving the article markup A7. -/
def env7 : Env := fun _ _ _ => .response 200 "A7"

/-- DOM with no paragraph nodes on any page. -/
def dom7 : Dom := { articles := fun _ => [], bodyParagraphs := fun _ => [] }

/-- The trending-feed payload of the spec's example: body.topKeywordSearch
holding two entries with keywords a and b. -/
def goodPayload : Json :=
  Json.obj [("body", Json.obj [("topKeywordSearch",
    Json.arr [Json.obj [("keyword", Json.str "a")],
              Json.obj [("keyword", Json.str "b")]])])]

/-- JSON environment serving `goodPayload`. -/
def jenvGood : JsonEnv := fun _ _ => .value goodPayload

/-- JSON environment serving the payload whose body field is JSON null, a
payload that lacks the body.topKeywordSearch path. -/
def jenvBodyNull : JsonEnv := fun _ _ => .value (Json.obj [("body", Json.null)])

/-- Concrete environment serving the article markup A9. -/
def env9 : Env := fun _ _ _ => .response 200 "A9"

/-- DOM whose article page A9 holds one paragraph. -/
def dom9 : Dom :=
  { articles := fun _ => []
    bodyParagraphs := fun h => if h = "A9" then ["p"] else [] }

/-- Concrete stub without a description element. -/
def stub9 : Stub := ⟨some "T9", some (some "D9"), some (some "https://u9"), none⟩

/-- The record `parse_item` builds from `stub9` under `dom9`. -/
def rec9 : ScrapeResult := ⟨"T9", "https://u9", "D9", "No description", "p"⟩

/-- Trending payload whose topKeywordSearch list holds one entry that lacks
the keyword key. -/
def payload10 : Json :=
  Json.obj [("body", Json.obj [("topKeywordSearch",
    Json.arr [Json.obj [("kw", Json.str "x")]])])]

/-- JSON environment serving `payload10`. -/
def jenv10 : JsonEnv := fun _ _ => .value payload10

/-- A successful lookup of a key implies the membership test on the
association list succeeds. -/
theorem any_key_of_lookup {β : Type} {k : String} {v : β} :
    ∀ (l : List (String × β)), l.lookup k = some v →
      l.any (fun p => p.1 == k) = true := by
  intro l
  induction l with
  | nil => intro h; simp [List.lookup] at h
  | cons q qs ih =>
    intro h
    rw [List.lookup] at h
    cases hk : k == q.1 with
    | true =>
      have h1 : q.1 = k := (eq_of_beq hk).symm
      simp [List.any_cons, h1]
    | false =>
      rw [hk] at h
      simp [List.any_cons, ih h]

/-- A failed lookup of a key implies the membership test on the association
list fails. -/
theorem any_key_of_lookup_none {β : Type} {k : String} :
    ∀ (l : List (String × β)), l.lookup k = none →
      l.any (fun p => p.1 == k) = false := by
  intro l
  induction l with
  | nil => intro _; rfl
  | cons q qs ih =>
    intro h
    rw [List.lookup] at h
    cases hk : k == q.1 with
    | true => rw [hk] at h; exact absurd h (by simp)
    | false =>
      rw [hk] at h
      have hq : (q.1 == k) = false := by
        cases hq2 : q.1 == k with
        | false => rfl
        | true =>
          have h1 : q.1 = k := eq_of_beq hq2
          rw [h1] at hk
          simp at hk
      simp [List.any_cons, hq, ih h]

/-- A raising element makes the whole comprehension raise. -/
theorem mapExcept_isErr {α β : Type} (f : α → Except PyErr β) :
    ∀ (xs : List α) (x : α), x ∈ xs → isErr (f x) = true →
      isErr (mapExcept f xs) = true := by
  intro xs
  induction xs with
  | nil => intro x hx; simp at hx
  | cons y rest ih =>
    intro x hx hfx
    rw [mapExcept]
    cases hfy : f y with
    | error e => simp [isErr]
    | ok v =>
      rcases List.mem_cons.mp hx with rfl | hx'
      · rw [hfy] at hfx; simp [isErr] at hfx
      · have := ih x hx' hfx
        cases hrest : mapExcept f rest with
        | error e => simp [isErr]
        | ok vs => rw [hrest] at this; simp [isErr] at this

/-- A successful `gatherExc` join has as many results as tasks and, at every
index, the result of the task of that same index. -/
theorem gatherExc_ok {α : Type} :
    ∀ (tasks : List (List Request × Except PyErr α)) (vs : List α),
      (gatherExc tasks).2 = .ok vs →
      vs.length = tasks.length ∧
      ∀ i (h1 : i < tasks.length) (h2 : i < vs.length),
        (tasks.get ⟨i, h1⟩).2 = .ok (vs.get ⟨i, h2⟩) := by
  intro tasks
  induction tasks with
  | nil =>
    intro vs h
    rw [gatherExc] at h
    cases h
    exact ⟨rfl, fun i h1 _ => absurd h1 (by simp)⟩
  | cons t rest ih =>
    intro vs h
    rw [gatherExc] at h
    cases ht : t.2 with
    | error e => rw [ht] at h; cases h
    | ok v =>
      rw [ht] at h
      cases hrest : (gatherExc rest).2 with
      | error e => rw [hrest] at h; cases h
      | ok vs' =>
        rw [hrest] at h
        cases h
        obtain ⟨hlen, hpt⟩ := ih vs' hrest
        refine ⟨by simp [hlen], ?_⟩
        intro i h1 h2
        cases i with
        | zero => simpa using ht
        | succ n =>
          exact hpt n (by simpa using h1) (by simpa using h2)

/-- Every request in a `gatherExc` trace comes from one of the tasks. -/
theorem mem_gatherExc_trace {α : Type} :
    ∀ (tasks : List (List Request × Except PyErr α)) (r : Request),
      r ∈ (gatherExc tasks).1 → ∃ t ∈ tasks, r ∈ t.1 := by
  intro tasks
  induction tasks with
  | nil => intro r h; simp [gatherExc] at h
  | cons t rest ih =>
    intro r h
    rw [gatherExc] at h
    rcases List.mem_append.mp h with h' | h'
    · exact ⟨t, List.mem_cons_self t rest, h'⟩
    · obtain ⟨t', ht', hr⟩ := ih r h'
      exact ⟨t', List.mem_cons_of_mem t ht', hr⟩

/-- The listing request of a `parse` trace is exactly the request built from
the arguments `parse` passes to `fetch_page`. -/
theorem parse_fst_listing (env : Env) (dom : Dom) (url : String)
    (params headers : List (String × String)) :
    (parse env dom url params headers).1.listing = ⟨url, params, headers⟩ := by
  unfold parse
  split
  · rfl
  · split
    · rfl
    · rfl

/-- Every request a `parse_item` task issues is an article-content fetch:
empty params and empty headers. -/
theorem parse_item_trace (env : Env) (dom : Dom) (stub : Stub) :
    ∀ r ∈ (parse_item env dom stub).1, r.headers = [] ∧ r.params = [] := by
  intro r hr
  obtain ⟨t, d, u, de⟩ := stub
  cases t with
  | none => simp [parse_item] at hr
  | some title =>
    cases d with
    | none => simp [parse_item] at hr
    | some d2 =>
      cases d2 with
      | none => simp [parse_item] at hr
      | some date =>
        cases u with
        | none => simp [parse_item] at hr
        | some u2 =>
          cases u2 with
          | none => simp [parse_item] at hr
          | some url =>
            cases hc : (parse_content env dom url).2 with
            | error e =>
              simp only [parse_item] at hr
              rw [hc] at hr
              simp only [List.mem_singleton] at hr
              subst hr
              exact ⟨rfl, rfl⟩
            | ok c =>
              simp only [parse_item] at hr
              rw [hc] at hr
              simp only [List.mem_singleton] at hr
              subst hr
              exact ⟨rfl, rfl⟩

/-- Every content request in a `parse` trace has empty params and headers. -/
theorem parse_contents_sub (env : Env) (dom : Dom) (url : String)
    (params headers : List (String × String)) :
    ∀ c ∈ (parse env dom url params headers).1.contents,
      c.headers = [] ∧ c.params = [] := by
  intro c hc
  unfold parse at hc
  split at hc
  · simp at hc
  · split at hc
    · simp at hc
    · obtain ⟨t, ht, hct⟩ := mem_gatherExc_trace _ c hc
      obtain ⟨stub, hstub, rfl⟩ := List.mem_map.mp ht
      exact parse_item_trace env dom stub c hct

/-- Every page trace `scrapeLoop` records is the trace of a `parse` call with
the fixed search url, the per-page params and the fixed header dict. -/
theorem scrapeLoop_trace (env : Env) (dom : Dom) (keyword : String) :
    ∀ (ps : List Nat) (pt : PageTrace), pt ∈ (scrapeLoop env dom keyword ps).1 →
      ∃ p, pt = (parse env dom SEARCH_URL (pageParams keyword p) uaHeaders).1 := by
  intro ps
  induction ps with
  | nil => intro pt h; simp [scrapeLoop] at h
  | cons p rest ih =>
    intro pt h
    rw [scrapeLoop] at h
    split at h
    · rcases List.mem_singleton.mp h with rfl
      exact ⟨p, rfl⟩
    · rcases List.mem_cons.mp h with rfl | h'
      · exact ⟨p, rfl⟩
      · exact ih pt h'

/-- When every page of the list parses successfully, `scrapeLoop` records one
trace per page in order and returns the page results concatenated in page
order. -/
theorem scrapeLoop_ok (env : Env) (dom : Dom) (keyword : String) :
    ∀ (ps : List Nat),
      (∀ p ∈ ps, ∃ v,
        (parse env dom SEARCH_URL (pageParams keyword p) uaHeaders).2 = .ok v) →
      scrapeLoop env dom keyword ps =
        (ps.map (fun p => (parse env dom SEARCH_URL (pageParams keyword p) uaHeaders).1),
         .ok ((ps.map (fun p =>
           okOrNil (parse env dom SEARCH_URL (pageParams keyword p) uaHeaders).2)).flatten)) := by
  intro ps
  induction ps with
  | nil => intro _; rfl
  | cons p rest ih =>
    intro h
    obtain ⟨v, hv⟩ := h p (List.mem_cons_self p rest)
    have hrest := ih (fun q hq => h q (List.mem_cons_of_mem p hq))
    rw [scrapeLoop, hv, hrest]
    simp [okOrNil, hv]

/-- When the pages before `k` parse successfully and page `k` fails with `e`,
the loop over the pages around `k` fails with `e`. -/
theorem scrapeLoop_error (env : Env) (dom : Dom) (keyword : String)
    (k : Nat) (e : PyErr)
    (hfail : (parse env dom SEARCH_URL (pageParams keyword k) uaHeaders).2 = .error e) :
    ∀ (l1 l2 : List Nat),
      (∀ p ∈ l1, ∃ v,
        (parse env dom SEARCH_URL (pageParams keyword p) uaHeaders).2 = .ok v) →
      (scrapeLoop env dom keyword (l1 ++ k :: l2)).2 = .error e := by
  intro l1
  induction l1 with
  | nil =>
    intro l2 _
    rw [List.nil_append, scrapeLoop, hfail]
  | cons p rest ih =>
    intro l2 h
    obtain ⟨v, hv⟩ := h p (List.mem_cons_self p rest)
    rw [List.cons_append, scrapeLoop, hv]
    simp only
    rw [ih l2 (fun q hq => h q (List.mem_cons_of_mem p hq))]

/-- The slot written for index `i` after a completion schedule `σ`: the
result of task `i` when `i` completed in `σ`, the prior slot value
otherwise.  Writes are idempotent, so the completion order is irrelevant. -/
theorem runSchedule_eval {α : Type} (tasks : List α) :
    ∀ (σ : List Nat) (slots : Nat → Option α) (i : Nat),
      runSchedule tasks σ slots i = if i ∈ σ then tasks[i]? else slots i := by
  intro σ
  induction σ with
  | nil => intro slots i; simp [runSchedule]
  | cons j rest ih =>
    intro slots i
    rw [runSchedule, ih]
    by_cases hr : i ∈ rest
    · simp [hr, List.mem_cons]
    · by_cases hj : i = j
      · subst hj; simp [hr, List.mem_cons]
      · simp [hr, hj, List.mem_cons]

/-- Reading every index of a list through the optional indexer is mapping
`some` over it. -/
theorem range_map_getElem {α : Type} :
    ∀ (l : List α), (List.range l.length).map (fun i => l[i]?) = l.map some := by
  intro l
  induction l with
  | nil => rfl
  | cons x xs ih =>
    rw [List.length_cons, List.range_succ_eq_map, List.map_cons, List.map_map,
      List.map_cons]
    rw [List.getElem?_cons_zero]
    refine congrArg (some x :: ·) ?_
    rw [← ih]
    apply List.map_congr_left
    intro i _
    simp [Function.comp, List.getElem?_cons_succ]

/-- Collecting fully written slots recovers the list. -/
theorem collectSlots_map_some {α : Type} :
    ∀ (l : List α), collectSlots (l.map some) = some l := by
  intro l
  induction l with
  | nil => rfl
  | cons x xs ih => rw [List.map_cons, collectSlots, ih]

/-- Fan-in assembly is schedule independent: under every completion order
that covers all task indices, the assembled result list is the task results
in task-index order. -/
theorem gatherAssemble_complete {α : Type} (tasks : List α) (σ : List Nat)
    (hcov : ∀ i, i < tasks.length → i ∈ σ) :
    gatherAssemble tasks σ = some tasks := by
  unfold gatherAssemble
  have hmap : (List.range tasks.length).map (runSchedule tasks σ (fun _ => none)) =
      (List.range tasks.length).map (fun i => tasks[i]?) := by
    apply List.map_congr_left
    intro i hi
    rw [runSchedule_eval]
    simp [hcov i (List.mem_range.mp hi)]
  rw [hmap, range_map_getElem, collectSlots_map_some]

/-- Claim C1.  The claim states that a fetch whose upstream responds with a
non-success HTTP status code fails with an UpstreamStatus failure carrying
the status code and url, rather than returning the response body as text.
The code does the opposite: when the upstream answers status 404 with body
"Not Found", `fetch_page` returns that body text as a success, because
`httpx.AsyncClient.get` never raises `httpx.HTTPStatusError` (only the
uncalled `Response.raise_for_status` does), so the except clause written for
that exception in app.py lines 32 to 33 is unreachable. -/
theorem C1_nonsuccess_status_returns_body :
    (fetch_page envC1 SEARCH_URL [] []).2 = Except.ok "Not Found" := rfl

/-- Claim C2.  For every keyword and every pageCount of at least 1 whose
pages all parse successfully, `scrape` issues exactly pageCount listing
fetches, with page numbers 1 through pageCount inclusive in increasing
order, and its output equals the concatenation of the pages' record
sequences in page order. -/
theorem C2_scrape_pagination (env : Env) (dom : Dom) (keyword : String)
    (pages : Nat) (hp : 1 ≤ pages)
    (hok : ∀ p, 1 ≤ p → p ≤ pages →
      ∃ v, (parse env dom SEARCH_URL (pageParams keyword p) uaHeaders).2 = .ok v) :
    (scrape env dom keyword pages).1.length = pages ∧
    (scrape env dom keyword pages).1.map PageTrace.listing =
      (List.range' 1 pages).map
        (fun p => Request.mk SEARCH_URL (pageParams keyword p) uaHeaders) ∧
    (scrape env dom keyword pages).2 =
      .ok (((List.range' 1 pages).map (fun p =>
        okOrNil (parse env dom SEARCH_URL (pageParams keyword p) uaHeaders).2)).flatten) := by
  have hok' : ∀ p ∈ List.range' 1 pages,
      ∃ v, (parse env dom SEARCH_URL (pageParams keyword p) uaHeaders).2 = .ok v := by
    intro p hp'
    rw [List.mem_range'_1] at hp'
    exact hok p hp'.1 (by omega)
  have h := scrapeLoop_ok env dom keyword (List.range' 1 pages) hok'
  unfold scrape
  rw [h]
  refine ⟨by simp, ?_, rfl⟩
  rw [List.map_map]
  apply List.map_congr_left
  intro p _
  simp only [Function.comp]
  rw [parse_fst_listing]

/-- Witness for C2: scraping two pages in the pagination scenario issues the
two listing fetches for pages 1 and 2 in order and returns the two pages'
records concatenated. -/
theorem C2_scrape_pagination_witness :
    (scrape env2 dom2 "kw" 2).1.length = 2 ∧
    (scrape env2 dom2 "kw" 2).1.map PageTrace.listing =
      (List.range' 1 2).map
        (fun p => Request.mk SEARCH_URL (pageParams "kw" p) uaHeaders) ∧
    (scrape env2 dom2 "kw" 2).2 =
      .ok (((List.range' 1 2).map (fun p =>
        okOrNil (parse env2 dom2 SEARCH_URL (pageParams "kw" p) uaHeaders).2)).flatten) :=
  C2_scrape_pagination env2 dom2 "kw" 2 (by decide)
    (by
      intro p h1 h2
      interval_cases p
      · exact ⟨[recA], rfl⟩
      · exact ⟨[recB], rfl⟩)

/-- Claim C3.  If page `k` of an in-flight scrape request fails with `e`
(for example because a fetch inside it exceeded the timeout) while the pages
before `k` succeed, the whole request fails with `e`: no list of records,
partial or otherwise, is returned. -/
theorem C3_failure_aborts_request (env : Env) (dom : Dom) (keyword : String)
    (pages k : Nat) (e : PyErr) (hk1 : 1 ≤ k) (hk2 : k ≤ pages)
    (hbefore : ∀ p, 1 ≤ p → p < k →
      ∃ v, (parse env dom SEARCH_URL (pageParams keyword p) uaHeaders).2 = .ok v)
    (hfail : (parse env dom SEARCH_URL (pageParams keyword k) uaHeaders).2 = .error e) :
    (scrape env dom keyword pages).2 = .error e ∧
    ∀ rs, (scrape env dom keyword pages).2 ≠ .ok rs := by
  have e1 : 1 + 1 * (k - 1) = k := by omega
  have e2 : pages - (k - 1) + (k - 1) = pages := by omega
  have e3 : pages - (k - 1) = (pages - k) + 1 := by omega
  have hdecomp : List.range' 1 pages =
      List.range' 1 (k - 1) ++ (k :: List.range' (k + 1) (pages - k)) := by
    calc List.range' 1 pages
        = List.range' 1 (pages - (k - 1) + (k - 1)) := by rw [e2]
      _ = List.range' 1 (k - 1) ++ List.range' (1 + 1 * (k - 1)) (pages - (k - 1)) :=
          (List.range'_append 1 (k - 1) (pages - (k - 1)) 1).symm
      _ = List.range' 1 (k - 1) ++ List.range' k ((pages - k) + 1) := by rw [e1, e3]
      _ = List.range' 1 (k - 1) ++ (k :: List.range' (k + 1) (pages - k)) := by
          rw [List.range'_succ]
  have hb : ∀ p ∈ List.range' 1 (k - 1),
      ∃ v, (parse env dom SEARCH_URL (pageParams keyword p) uaHeaders).2 = .ok v := by
    intro p hp'
    rw [List.mem_range'_1] at hp'
    exact hbefore p hp'.1 (by omega)
  have hmain : (scrapeLoop env dom keyword (List.range' 1 pages)).2 = .error e := by
    rw [hdecomp]
    exact scrapeLoop_error env dom keyword k e hfail
      (List.range' 1 (k - 1)) (List.range' (k + 1) (pages - k)) hb
  refine ⟨hmain, ?_⟩
  intro rs hcon
  rw [show (scrape env dom keyword pages).2 =
    (scrapeLoop env dom keyword (List.range' 1 pages)).2 from rfl, hmain] at hcon
  exact Except.noConfusion hcon

/-- Witness for C3: in the abort scenario the page-2 stub's content fetch
times out, and the whole two-page scrape fails with that 504 timeout
failure. -/
theorem C3_failure_aborts_request_witness :
    (parse env3 dom3 SEARCH_URL (pageParams "kw" 2) uaHeaders).2 =
      .error (.httpExc 504 "Timeout: unable to connect to https://slow") ∧
    (scrape env3 dom3 "kw" 2).2 =
      .error (.httpExc 504 "Timeout: unable to connect to https://slow") :=
  ⟨rfl,
    (C3_failure_aborts_request env3 dom3 "kw" 2 2
      (.httpExc 504 "Timeout: unable to connect to https://slow")
      (by decide) (by decide)
      (by
        intro p h1 h2
        interval_cases p
        exact ⟨_, rfl⟩)
      rfl).1⟩

/-- Claim C4.  A successful `parse` of a listing page returns one record per
article stub, in stub order: the record at index i is the result of
`parse_item` on the stub at index i.  Moreover the fan-in assembly of those
results is schedule independent: every completion order of the concurrently
launched per-stub tasks that covers all task indices assembles the same
sequence. -/
theorem C4_parse_preserves_stub_order (env : Env) (dom : Dom) (url : String)
    (params headers : List (String × String)) (html : String)
    (rs : List ScrapeResult)
    (hfetch : (fetch_page env url params headers).2 = .ok html)
    (hne : html ≠ "")
    (hr : (parse env dom url params headers).2 = .ok rs) :
    rs.length = (dom.articles html).length ∧
    (∀ i (h1 : i < (dom.articles html).length) (h2 : i < rs.length),
      (parse_item env dom ((dom.articles html).get ⟨i, h1⟩)).2 =
        .ok (rs.get ⟨i, h2⟩)) ∧
    (∀ σ : List Nat, (∀ i, i < rs.length → i ∈ σ) →
      gatherAssemble rs σ = some rs) := by
  have hg : (gatherExc ((dom.articles html).map (parse_item env dom))).2 = .ok rs := by
    unfold parse at hr
    rw [hfetch] at hr
    dsimp only at hr
    rw [if_neg hne] at hr
    exact hr
  obtain ⟨hlen, hpt⟩ := gatherExc_ok _ rs hg
  refine ⟨by simpa using hlen, ?_, fun σ hσ => gatherAssemble_complete rs σ hσ⟩
  intro i h1 h2
  have h := hpt i (by simpa using h1) h2
  rwa [List.get_map] at h

/-- Witness for C4: the two-stub page parses to `rs4` in stub order, and the
reversed completion order `[1, 0]` assembles the same sequence. -/
theorem C4_parse_preserves_stub_order_witness :
    rs4.length = (dom4.articles "L1").length ∧
    gatherAssemble rs4 [1, 0] = some rs4 :=
  have h := C4_parse_preserves_stub_order env4 dom4 SEARCH_URL (pageParams "kw" 1)
    uaHeaders "L1" rs4 rfl (by decide) rfl
  ⟨h.1, h.2.2 [1, 0] (by decide)⟩

/-- Claim C5, counterexample.  The claim states that every fetch to the
three upstream endpoints carries the fixed client-identifier header.  In the
header scenario the per-stub article fetch recorded in the scrape trace is
issued with an empty header dict, because `parse_content` calls
`fetch_page(url, {}, {})` (app.py line 37). -/
theorem C5_article_fetch_headers_counterexample :
    (scrape env5 dom5 "kw" 1).1 = [pt5] ∧
    (Request.mk "https://news.detik.com/a" [] []).headers ≠ uaHeaders :=
  ⟨rfl, by decide⟩

/-- Claim C5, amended.  Every listing fetch recorded in a scrape trace
carries the fixed client-identifier header dict, and so does the trending
fetch; the per-stub article fetches are instead issued with empty query
parameters and an empty header dict. -/
theorem C5_fixed_header_amended (env : Env) (dom : Dom) (keyword : String)
    (pages : Nat) (jenv : JsonEnv) (pt : PageTrace)
    (hpt : pt ∈ (scrape env dom keyword pages).1) :
    pt.listing.headers = uaHeaders ∧
    (∀ c ∈ pt.contents, c.headers = [] ∧ c.params = []) ∧
    (trending_keywords jenv).1.headers = uaHeaders := by
  obtain ⟨p, rfl⟩ := scrapeLoop_trace env dom keyword (List.range' 1 pages) pt hpt
  refine ⟨?_, ?_, rfl⟩
  · rw [parse_fst_listing]
  · exact parse_contents_sub env dom SEARCH_URL (pageParams keyword p) uaHeaders

/-- Witness for the amended C5: in the header scenario, `pt5` is a page
trace of the scrape run, and its listing request carries the fixed header
dict. -/
theorem C5_fixed_header_amended_witness :
    pt5 ∈ (scrape env5 dom5 "kw" 1).1 ∧ pt5.listing.headers = uaHeaders :=
  ⟨by decide, (C5_fixed_header_amended env5 dom5 "kw" 1 jenvTimeout pt5 (by decide)).1⟩

/-- Claim C6.  When the listing fetch succeeds but yields no text, or the
fetched markup contains zero article-stub nodes, `parse` returns the empty
record sequence rather than failing. -/
theorem C6_parse_empty (env : Env) (dom : Dom) (url : String)
    (params headers : List (String × String)) (html : String)
    (hfetch : (fetch_page env url params headers).2 = .ok html)
    (hempty : html = "" ∨ dom.articles html = []) :
    (parse env dom url params headers).2 = .ok [] := by
  unfold parse
  rw [hfetch]
  dsimp only
  rcases hempty with h | h
  · rw [if_pos h]
  · by_cases hh : html = ""
    · rw [if_pos hh]
    · rw [if_neg hh, h]
      rfl

/-- Witness for C6: a fetch yielding the empty body makes `parse` return the
empty sequence. -/
theorem C6_parse_empty_witness :
    (fetch_page env6 SEARCH_URL [] []).2 = .ok "" ∧
    (parse env6 dom6 SEARCH_URL [] []).2 = .ok [] :=
  ⟨rfl, C6_parse_empty env6 dom6 SEARCH_URL [] [] "" rfl (Or.inl rfl)⟩

/-- Claim C7.  When the article fetch succeeds, `parse_content` returns the
fixed sentinel string exactly when the page has zero paragraph nodes under
the article body container, and otherwise the paragraph texts joined with
newline separators in document order. -/
theorem C7_content_sentinel (env : Env) (dom : Dom) (url : String)
    (html : String)
    (hfetch : (fetch_page env url [] []).2 = .ok html) :
    (dom.bodyParagraphs html = [] →
      (parse_content env dom url).2 = .ok "No content available.") ∧
    (dom.bodyParagraphs html ≠ [] →
      (parse_content env dom url).2 =
        .ok (String.intercalate "\n" (dom.bodyParagraphs html))) := by
  constructor
  · intro h
    unfold parse_content
    rw [hfetch]
    dsimp only
    rw [if_pos h]
  · intro h
    unfold parse_content
    rw [hfetch]
    dsimp only
    rw [if_neg h]

/-- Witness for C7: an article page with zero paragraph nodes yields the
sentinel. -/
theorem C7_content_sentinel_witness :
    (fetch_page env7 "https://news.detik.com/x" [] []).2 = .ok "A7" ∧
    (parse_content env7 dom7 "https://news.detik.com/x").2 =
      .ok "No content available." :=
  ⟨rfl, (C7_content_sentinel env7 dom7 "https://news.detik.com/x" "A7" rfl).1 rfl⟩

/-- Claim C8, counterexample.  The claim states that every payload lacking
the body.topKeywordSearch field path yields the empty sequence rather than
failing.  The payload whose body field is JSON null lacks that path, yet
`get_trending_keywords` raises TypeError, because the guard evaluates the
membership test `"topKeywordSearch" not in json_data["body"]` on a
non-container value. -/
theorem C8_body_null_counterexample :
    (get_trending_keywords jenvBodyNull TRENDING_URL uaHeaders).2 =
      Except.error PyErr.typeError := rfl

/-- Claim C8, amended.  Given the example trending payload,
`get_trending_keywords` returns the two keywords in feed order; a falsy
payload (no data), an object payload without a body key, and an object
payload whose body is an object without a topKeywordSearch key all yield the
empty sequence.  (A payload whose body is a non-container value instead
raises TypeError, per the counterexample.) -/
theorem C8_trending_amended (jenv : JsonEnv) (api_url : String)
    (headers : List (String × String)) (payload : Json)
    (hfetch : (fetch_json jenv api_url headers).2 = .ok payload) :
    (payload = goodPayload →
      (get_trending_keywords jenv api_url headers).2 =
        .ok [Json.str "a", Json.str "b"]) ∧
    (payload.truthy = false →
      (get_trending_keywords jenv api_url headers).2 = .ok []) ∧
    (∀ fields, payload = Json.obj fields → fields.lookup "body" = none →
      (get_trending_keywords jenv api_url headers).2 = .ok []) ∧
    (∀ fields bfields, payload = Json.obj fields →
      fields.lookup "body" = some (Json.obj bfields) →
      bfields.lookup "topKeywordSearch" = none →
      (get_trending_keywords jenv api_url headers).2 = .ok []) := by
  refine ⟨?_, ?_, ?_, ?_⟩
  · intro h
    subst h
    unfold get_trending_keywords
    rw [hfetch]
    rfl
  · intro h
    unfold get_trending_keywords
    rw [hfetch]
    dsimp only
    rw [if_pos h]
  · intro fields h hlk
    subst h
    unfold get_trending_keywords
    rw [hfetch]
    dsimp only
    by_cases htr : (Json.obj fields).truthy = false
    · rw [if_pos htr]
    · rw [if_neg htr]
      have h1 := any_key_of_lookup_none fields hlk
      simp only [Json.containsKey, h1]
  · intro fields bfields h hb htk
    subst h
    unfold get_trending_keywords
    rw [hfetch]
    dsimp only
    have htr : ((Json.obj fields).truthy = false) = False := by
      cases fields with
      | nil => simp [List.lookup] at hb
      | cons q qs => simp [Json.truthy]
    rw [if_neg (by rw [htr]; exact not_false)]
    have h1 := any_key_of_lookup fields hb
    simp only [Json.containsKey, h1, Json.getItem, hb]
    have h2 := any_key_of_lookup_none bfields htk
    simp only [h2]

/-- Witness for the amended C8: the example payload yields the keywords a, b
in feed order. -/
theorem C8_trending_amended_witness :
    (fetch_json jenvGood TRENDING_URL uaHeaders).2 = .ok goodPayload ∧
    (get_trending_keywords jenvGood TRENDING_URL uaHeaders).2 =
      .ok [Json.str "a", Json.str "b"] :=
  ⟨rfl, (C8_trending_amended jenvGood TRENDING_URL uaHeaders goodPayload rfl).1 rfl⟩

/-- Claim C9.  For a stub whose required title, date and link queries
succeed and whose content resolves, the built record's desc field is the
literal sentinel when the description element is absent, and the trimmed
description text when it is present. -/
theorem C9_desc_fallback (env : Env) (dom : Dom) (stub : Stub)
    (title date url : String) (rec : ScrapeResult)
    (ht : stub.titleText = some title)
    (hd : stub.dateTitleAttr = some (some date))
    (hu : stub.linkHref = some (some url))
    (hr : (parse_item env dom stub).2 = .ok rec) :
    (stub.descText = none → rec.desc = "No description") ∧
    (∀ d, stub.descText = some d → rec.desc = pyStrip d) := by
  obtain ⟨t, dd, u, de⟩ := stub
  simp only at ht hd hu
  subst ht
  subst hd
  subst hu
  simp only [parse_item] at hr
  cases hc : (parse_content env dom url).2 with
  | error e => rw [hc] at hr; cases hr
  | ok content =>
    rw [hc] at hr
    dsimp only at hr
    cases hr
    constructor
    · intro hde
      subst hde
      show pyStrip "No description" = "No description"
      rfl
    · intro d hde
      subst hde
      rfl

/-- Witness for C9: a stub without a description element yields a record
whose desc is the sentinel. -/
theorem C9_desc_fallback_witness :
    (parse_item env9 dom9 stub9).2 = .ok rec9 ∧ rec9.desc = "No description" :=
  ⟨rfl, (C9_desc_fallback env9 dom9 stub9 "T9" "D9" "https://u9" rec9
    rfl rfl rfl rfl).1 rfl⟩

/-- Claim C10.  When the decoded payload does contain the
body.topKeywordSearch path but some entry of that list is an object without
a keyword key, `get_trending_keywords` fails with an exception instead of
skipping the entry or returning the empty sequence. -/
theorem C10_missing_keyword_fails (jenv : JsonEnv) (api_url : String)
    (headers : List (String × String)) (fields bfields : List (String × Json))
    (items : List Json)
    (hfetch : (fetch_json jenv api_url headers).2 = .ok (Json.obj fields))
    (hb : fields.lookup "body" = some (Json.obj bfields))
    (htk : bfields.lookup "topKeywordSearch" = some (Json.arr items))
    (hbad : ∃ it ∈ items, ∃ ifields,
      it = Json.obj ifields ∧ ifields.lookup "keyword" = none) :
    isErr (get_trending_keywords jenv api_url headers).2 = true := by
  obtain ⟨it, hmem, ifields, rfl, hkw⟩ := hbad
  unfold get_trending_keywords
  rw [hfetch]
  dsimp only
  have htr : ((Json.obj fields).truthy = false) = False := by
    cases fields with
    | nil => simp [List.lookup] at hb
    | cons q qs => simp [Json.truthy]
  rw [if_neg (by rw [htr]; exact not_false)]
  have h1 := any_key_of_lookup fields hb
  simp only [Json.containsKey, h1, Json.getItem, hb]
  have h2 := any_key_of_lookup bfields htk
  simp only [h2, htk]
  simp only [Json.iterate]
  apply mapExcept_isErr _ items (Json.obj ifields) hmem
  simp [Json.getItem, hkw, isErr]

/-- Witness for C10: a topKeywordSearch entry without a keyword key makes
the call raise. -/
theorem C10_missing_keyword_fails_witness :
    (fetch_json jenv10 TRENDING_URL uaHeaders).2 =
      .ok (Json.obj [("body", Json.obj [("topKeywordSearch",
        Json.arr [Json.obj [("kw", Json.str "x")]])])]) ∧
    isErr (get_trending_keywords jenv10 TRENDING_URL uaHeaders).2 = true :=
  ⟨rfl, C10_missing_keyword_fails jenv10 TRENDING_URL uaHeaders
    [("body", Json.obj [("topKeywordSearch", Json.arr [Json.obj [("kw", Json.str "x")]])])]
    [("topKeywordSearch", Json.arr [Json.obj [("kw", Json.str "x")]])]
    [Json.obj [("kw", Json.str "x")]]
    rfl rfl rfl
    ⟨Json.obj [("kw", Json.str "x")], List.mem_singleton_self _,
      [("kw", Json.str "x")], rfl, rfl⟩⟩

end DetikAPI
